import Mathlib

/-!
Shallow embedding of the Terraflux MCP layer.

Engine side: `src/mcp/server/terraform_server.py` (class `TerraformMCPServer`):
`plan_infrastructure`, `apply_infrastructure`, `_create_workspace`,
`_run_terraform_command`, `_create_secure_credentials_file`,
`_cleanup_credentials_file`, `_get_plan_json`, `_get_terraform_outputs`,
`_estimate_cost`, `_count_resources`.

Client side: `src/mcp/client.py` (class `MCPClient`): the message dataclass
`MCPMessage`, the encoding in `_send_message`, the decoding and per-call
receive loop in `_wait_for_response`, and the guard at the top of `call_tool`.

Filesystem state is a set of directories and files; external effects
(process spawns, credential-file writes, message sends) are recorded in an
explicit event trace.  Outcomes of the external `terraform` CLI are inputs
(oracles) to the embedded operations.  Payload dictionaries are opaque
strings.
-/

namespace Terraflux

/-! ### List-as-set helpers (model Python dict / filesystem membership) -/

def hasFile : List String → String → Bool
  | [], _ => false
  | x :: xs, a => x == a || hasFile xs a

def insertFile (l : List String) (a : String) : List String :=
  if hasFile l a then l else a :: l

def removeFile : List String → String → List String
  | [], _ => []
  | x :: xs, a => if x == a then removeFile xs a else x :: removeFile xs a

def hasDir : List (List String) → List String → Bool
  | [], _ => false
  | d :: ds, a => d == a || hasDir ds a

def insertDir (l : List (List String)) (a : List String) : List (List String) :=
  if hasDir l a then l else a :: l

/-! ### Path model

A resolved path is a list of components.  `resolveComps` models
`Path.resolve()` component normalization; `pathStr` renders a path as the
slash-joined string (as `str(path)` does); `strStarts` models Python's
`str.startswith`; `dirLeads base p` models `Path(p).relative_to(base)`
succeeding (base is a component-wise ancestor). -/

def resolveComps (cs : List String) : List String :=
  cs.foldl
    (fun acc c =>
      if c == "." then acc
      else if c == ".." then acc.dropLast
      else acc ++ [c]) []

def pathStr (cs : List String) : String :=
  String.intercalate "/" cs

def strStarts (s pre : String) : Bool :=
  pre.toList.isPrefixOf s.toList

def dirLeads : List String → List String → Bool
  | [], _ => true
  | _ :: _, [] => false
  | x :: xs, y :: ys => x == y && dirLeads xs ys

def basename (s : String) : String :=
  ((s.splitOn "/").getLast?).getD s

/-! ### Observable events of an engine / client operation -/

inductive Event where
    /-- Models `workspace_path.mkdir(parents=True, exist_ok=True, mode=0o750)` plus `chmod`. -/
  | mkdirWorkspace (path : List String)
    /-- Models `open(config_path, 'w')` writing rendered configuration. -/
  | writeFile (path : String)
    /-- Models `subprocess.run(['terraform'] + cmd, ..., timeout=...)`. -/
  | spawn (cmd : List String) (timeoutSecs : Nat)
    /-- Models `_create_secure_credentials_file` writing the file with mode 0o600. -/
  | credCreate (path : String)
    /-- Models `_cleanup_credentials_file` overwriting the file with random bytes. -/
  | credOverwrite (path : String)
    /-- Models `_cleanup_credentials_file` unlinking the file. -/
  | credUnlink (path : String)
  deriving DecidableEq, Repr

/-! ### Engine data model -/

structure FS where
  dirs : List (List String)
  files : List String
  deriving DecidableEq, Repr

/-- One entry of `self.active_plans` (a Python dict value). -/
structure PlanInfo where
  workspace_path : List String
  plan_file : String
  user_id : String
  resources : List String
  credentials_file : String
  deriving DecidableEq, Repr

def lookupPlan : List (String × PlanInfo) → String → Option PlanInfo
  | [], _ => none
  | (k, v) :: rest, key => if k == key then some v else lookupPlan rest key

def removePlan : List (String × PlanInfo) → String → List (String × PlanInfo)
  | [], _ => []
  | q :: rest, key =>
    if q.1 == key then removePlan rest key else q :: removePlan rest key

def insertPlan (l : List (String × PlanInfo)) (key : String) (v : PlanInfo) :
    List (String × PlanInfo) :=
  (key, v) :: removePlan l key

structure EngineState where
  active_plans : List (String × PlanInfo)
  fs : FS
  deriving DecidableEq, Repr

/-- Result dictionary of `apply_infrastructure`. -/
structure OpResult where
  success : Bool
  error : Option String
  outputs : Option String
  message : Option String
  deriving DecidableEq, Repr

/-- The `plan` sub-dictionary of a successful `plan_infrastructure` result. -/
structure PlanDescriptor where
  id : String
  resources_to_create : Nat
  estimated_cost : Rat
  summary : String
  deriving DecidableEq, Repr

/-- Result dictionary of `plan_infrastructure`. -/
structure PlanResult where
  success : Bool
  plan : Option PlanDescriptor
  error : Option String
  deriving DecidableEq, Repr

/-! ### Input validation (`_create_workspace`, lines 143-180) -/

/-- A character accepted by the source regex character class `[a-f0-9\-]`. -/
def uuidChar (c : Char) : Bool :=
  (('a' ≤ c && c ≤ 'f') || ('0' ≤ c && c ≤ '9') || c == '-')

/-- Models `re.match(r'^[a-f0-9\-]{36}$', user_id)`: 36 characters from the class;
Python's `$` also matches just before one trailing newline. -/
def regexMatchUserId (s : String) : Bool :=
  let cs := s.toList
  (cs.length == 36 && cs.all uuidChar) ||
  (cs.length == 37 && cs.getLast? == some '\n' && (cs.take 36).all uuidChar)

def envs : List String := ["dev", "staging", "prod"]

/-- Modelled from the spec: "UUID-shaped" in the canonical textual sense
produced by the system's id generator (`uuid.uuid4()`): 36 characters,
hyphens exactly at positions 8, 13, 18 and 23, lowercase hex digits
elsewhere.  Used only to compare the spec's wording with the source's
`regexMatchUserId` check. -/
def uuidShapedSpec (s : String) : Bool :=
  let cs := s.toList
  cs.length == 36 &&
  (List.range 36).all (fun i =>
    let c := cs.getD i ' '
    if i == 8 || i == 13 || i == 18 || i == 23 then c == '-'
    else (('a' ≤ c && c ≤ 'f') || ('0' ≤ c && c ≤ '9')))

/-- Value of `self.workspace_dir = "terraform/workspaces"`, resolved. -/
def workspaceBase : List String := ["terraform", "workspaces"]

/-- Models `_create_workspace(user_id, environment)`: validation, traversal check
(string `startswith` on the resolved path, as in the source), then `mkdir`.
Errors model raised `ValueError`s. -/
def create_workspace (fs : FS) (user_id environment : String) :
    Except String (List String) × FS × List Event :=
  if regexMatchUserId user_id = false then
    (.error "Invalid user_id format", fs, [])
  else if envs.contains environment = false then
    (.error "Invalid environment. Must be dev, staging, or prod", fs, [])
  else
    let wpath := workspaceBase ++ ["user-" ++ user_id, environment]
    if strStarts (pathStr (resolveComps wpath)) (pathStr workspaceBase) = false then
      (.error "Invalid workspace path - potential path traversal attack detected", fs, [])
    else
      (.ok wpath, { fs with dirs := insertDir fs.dirs wpath }, [.mkdirWorkspace wpath])

/-! ### External command execution (`_run_terraform_command`, lines 227-283) -/

def allowed_commands : List String :=
  ["init", "plan", "apply", "destroy", "output", "show", "validate"]

/-- Exceptions `_run_terraform_command` can raise. -/
inductive RunErr where
  | invalidPath (cwd : String)
  | missingPath (cwd : String)
  | notAllowed (sub : String)
  | nonzeroExit (stderr : String)
  | timedOut
  deriving DecidableEq, Repr

/-- The `str(e)` of the corresponding raised exception. -/
def runErrMsg : RunErr → String
  | .invalidPath cwd => "Invalid workspace path - potential path traversal attack: " ++ cwd
  | .missingPath cwd => "Workspace path does not exist: " ++ cwd
  | .notAllowed sub => "Terraform command not allowed: " ++ sub
  | .nonzeroExit stderr => "Terraform command failed: " ++ stderr
  | .timedOut => "Terraform command timed out after 5 minutes"

/-- Oracle for the behaviour of one spawned external process. -/
inductive CmdOutcome where
  | ok (stdout : String)
  | nonzero (stderr : String)
  | timedOut
  deriving DecidableEq, Repr

/-- Models `_run_terraform_command(cmd, cwd, env)`.  Order as in the source: resolve
and check the working directory (`relative_to` the base: component-wise
ancestor), check existence, check the allow-list (only when `cmd` is
nonempty, as `if cmd and cmd[0] not in allowed_commands`), then spawn with
`timeout=300`. -/
def run_terraform_command (cmd : List String) (cwd : List String)
    (dirs : List (List String)) (outcome : CmdOutcome) :
    Except RunErr String × List Event :=
  let resolved := resolveComps cwd
  if dirLeads workspaceBase resolved = false then
    (.error (.invalidPath (pathStr cwd)), [])
  else if hasDir dirs resolved = false then
    (.error (.missingPath (pathStr cwd)), [])
  else
    match cmd with
    | sub :: rest =>
      if allowed_commands.contains sub = false then
        (.error (.notAllowed sub), [])
      else
        (match outcome with
         | .ok stdout => .ok stdout
         | .nonzero stderr => .error (.nonzeroExit stderr)
         | .timedOut => .error .timedOut,
         [.spawn ("terraform" :: sub :: rest) 300])
    | [] =>
      (match outcome with
       | .ok stdout => .ok stdout
       | .nonzero stderr => .error (.nonzeroExit stderr)
       | .timedOut => .error .timedOut,
       [.spawn ["terraform"] 300])

/-! ### Credential file lifecycle (lines 307-360) -/

/-- Models `_create_secure_credentials_file`: writes the file (mode 0o600). -/
def create_secure_credentials_file (files : List String) (path : String) :
    List String × List Event :=
  (insertFile files path, [.credCreate path])

/-- Models `_cleanup_credentials_file`: if the file exists, overwrite it with random
bytes, then unlink it; errors are swallowed. -/
def cleanup_credentials_file (files : List String) (path : String) :
    List String × List Event :=
  if hasFile files path then
    (removeFile files path, [.credOverwrite path, .credUnlink path])
  else
    (files, [])

/-! ### Plan JSON, cost, outputs (lines 285-305, 362-432) -/

/-- A parsed plan JSON: for each entry of `resource_changes`, its
`change.actions` list. -/
structure PlanJson where
  resource_changes : List (List String)
  deriving DecidableEq, Repr

def emptyPlanJson : PlanJson := { resource_changes := [] }

/-- Models `_count_resources(plan_json, action)`. -/
def count_resources (pj : PlanJson) (action : String) : Nat :=
  (pj.resource_changes.filter (fun acts => acts.contains action)).length

/-- Models `_estimate_cost(plan_json)`: `total_cost` stays `0.0` and the function
returns `total_cost or 50.0`, i.e. the placeholder `50.0`. -/
def estimate_cost (_pj : PlanJson) : Rat :=
  let total_cost : Rat := 0
  if total_cost == 0 then 50 else total_cost

/-- Models `_get_terraform_outputs`: runs `terraform output -json`; any failure is
swallowed and yields the empty dictionary (modelled as `""`). -/
def get_terraform_outputs (ws : List String) (dirs : List (List String))
    (outcome : CmdOutcome) : String × List Event :=
  let r := run_terraform_command ["output", "-json"] ws dirs outcome
  match r.1 with
  | .ok out => (out, r.2)
  | .error _ => ("", r.2)

/-- Models `_get_plan_json`: runs `terraform show -json`; failures (including JSON
parse failure, the `parsed = none` oracle) yield the empty dictionary. -/
def get_plan_json (ws : List String) (dirs : List (List String))
    (planFileName : String) (outcome : CmdOutcome) (parsed : Option PlanJson) :
    PlanJson × List Event :=
  let r := run_terraform_command ["show", "-json", planFileName] ws dirs outcome
  match r.1 with
  | .ok out => (if out == "" then emptyPlanJson else parsed.getD emptyPlanJson, r.2)
  | .error _ => (emptyPlanJson, r.2)

/-! ### `apply_infrastructure` (lines 93-141)

Control flow of the source: unknown plan id and wrong owner return early
structured failures; then a credentials file is created; the inner
`try/finally` guarantees `_cleanup_credentials_file` runs after the
`terraform apply` and `terraform output` steps whether they succeed or
raise; a raised exception is turned into `{'success': False, 'error':
str(e)}` by the outer `except`.  `del self.active_plans[plan_id]` happens
only on full success, before the `finally`. -/
def apply_infrastructure (st : EngineState) (plan_id user_id credsPath : String)
    (applyOutcome outputsOutcome : CmdOutcome) :
    OpResult × EngineState × List Event :=
  match lookupPlan st.active_plans plan_id with
  | none =>
    ({ success := false, error := some "Plan not found", outputs := none, message := none },
     st, [])
  | some info =>
    if info.user_id != user_id then
      ({ success := false, error := some "Unauthorized", outputs := none, message := none },
       st, [])
    else
      let created := create_secure_credentials_file st.fs.files credsPath
      let files1 := created.1
      let evC := created.2
      let run1 := run_terraform_command ["apply", basename info.plan_file]
        info.workspace_path st.fs.dirs applyOutcome
      match run1.1 with
      | .error e =>
        let cleaned := cleanup_credentials_file files1 credsPath
        ({ success := false, error := some (runErrMsg e), outputs := none, message := none },
         { st with fs := { st.fs with files := cleaned.1 } },
         evC ++ run1.2 ++ cleaned.2)
      | .ok _ =>
        let outs := get_terraform_outputs info.workspace_path st.fs.dirs outputsOutcome
        let plans2 := removePlan st.active_plans plan_id
        let cleaned := cleanup_credentials_file files1 credsPath
        ({ success := true, error := none, outputs := some outs.1,
           message := some "Infrastructure provisioned successfully" },
         { active_plans := plans2, fs := { st.fs with files := cleaned.1 } },
         evC ++ run1.2 ++ outs.2 ++ cleaned.2)

/-! ### `plan_infrastructure` (lines 24-91)

Fresh tokens chosen by `uuid.uuid4()` during the call (`credsPath`,
`planFileName`, `planId`) are inputs.  A `ValueError` raised by
`_create_workspace` is caught by the outer `except` and returned as a
structured failure, before any file, process, or credential effect.  The
inner `try/finally` (entered only after the credentials file is written)
guarantees cleanup around `init`, `plan` and `show`.  `_get_plan_json`
swallows its own failures. -/
def plan_infrastructure (st : EngineState) (resources : List String)
    (_region environment user_id : String)
    (credsPath planFileName planId : String)
    (initOutcome planOutcome showOutcome : CmdOutcome)
    (parsedPlan : Option PlanJson) :
    PlanResult × EngineState × List Event :=
  match create_workspace st.fs user_id environment with
  | (.error e, fs1, ev1) =>
    ({ success := false, plan := none, error := some e }, { st with fs := fs1 }, ev1)
  | (.ok wpath, fs1, ev1) =>
    let cfgPath := pathStr wpath ++ "/main.tf"
    let fs2 : FS := { fs1 with files := insertFile fs1.files cfgPath }
    let ev2 := ev1 ++ [.writeFile cfgPath]
    let created := create_secure_credentials_file fs2.files credsPath
    let fs3 : FS := { fs2 with files := created.1 }
    let evC := created.2
    let runInit := run_terraform_command ["init"] wpath fs3.dirs initOutcome
    match runInit.1 with
    | .error e =>
      let cleaned := cleanup_credentials_file fs3.files credsPath
      ({ success := false, plan := none, error := some (runErrMsg e) },
       { st with fs := { fs3 with files := cleaned.1 } },
       ev2 ++ evC ++ runInit.2 ++ cleaned.2)
    | .ok _ =>
      let runPlan := run_terraform_command
        ["plan", "-out", planFileName, "-detailed-exitcode"] wpath fs3.dirs planOutcome
      match runPlan.1 with
      | .error e =>
        let cleaned := cleanup_credentials_file fs3.files credsPath
        ({ success := false, plan := none, error := some (runErrMsg e) },
         { st with fs := { fs3 with files := cleaned.1 } },
         ev2 ++ evC ++ runInit.2 ++ runPlan.2 ++ cleaned.2)
      | .ok _ =>
        let shown := get_plan_json wpath fs3.dirs planFileName showOutcome parsedPlan
        let info : PlanInfo :=
          { workspace_path := wpath,
            plan_file := pathStr wpath ++ "/" ++ planFileName,
            user_id := user_id,
            resources := resources,
            credentials_file := credsPath }
        let plans2 := insertPlan st.active_plans planId info
        let cleaned := cleanup_credentials_file fs3.files credsPath
        ({ success := true,
           plan := some
             { id := planId,
               resources_to_create := count_resources shown.1 "create",
               estimated_cost := estimate_cost shown.1,
               summary := "Plan will create infrastructure resources as requested." },
           error := none },
         { active_plans := plans2, fs := { fs3 with files := cleaned.1 } },
         ev2 ++ evC ++ runInit.2 ++ runPlan.2 ++ shown.2 ++ cleaned.2)

/-! ### Client side: message codec (`src/mcp/client.py`)

A wire message is the JSON object after `json.loads`: each of the six known
keys either absent (`none`) or present; payload dictionaries are opaque
strings. -/

inductive MessageType where
  | request
  | response
  | notification
  | error
  deriving DecidableEq, Repr

/-- The enum value string `MessageType.value`. -/
def MessageType.toWire : MessageType → String
  | .request => "request"
  | .response => "response"
  | .notification => "notification"
  | .error => "error"

/-- The enum constructor `MessageType(s)`: `none` models the raised
`ValueError` for an unrecognized value. -/
def MessageType.ofWire (s : String) : Option MessageType :=
  if s == "request" then some .request
  else if s == "response" then some .response
  else if s == "notification" then some .notification
  else if s == "error" then some .error
  else none

structure WireMsg where
  id : Option String
  type : Option String
  method : Option String
  params : Option String
  result : Option String
  error : Option String
  deriving DecidableEq, Repr

/-- The `MCPMessage` dataclass.  `id` is `Option` because decoding uses
`message_data.get("id")`, which can produce `None`. -/
structure MCPMessage where
  id : Option String
  type : MessageType
  method : Option String
  params : Option String
  result : Option String
  error : Option String
  deriving DecidableEq, Repr

/-- Decoding as done in `_wait_for_response.receive_messages` (lines
193-201): each field via `.get`, the kind via
`MessageType(message_data.get("type", "response"))`, whose `ValueError` on
an unrecognized value is the `.error` case.  No other validation is
performed. -/
def decodeMessage (w : WireMsg) : Except String MCPMessage :=
  match MessageType.ofWire (w.type.getD "response") with
  | none => .error "is not a valid MessageType"
  | some t =>
    .ok { id := w.id, type := t, method := w.method, params := w.params,
          result := w.result, error := w.error }

/-- Encoding as done in `_send_message` (lines 167-179): drop every field
whose value is `None`, then replace the enum by its string value.  The
`type` field of an `MCPMessage` is never `None`, so it is always emitted. -/
def encodeMessage (m : MCPMessage) : WireMsg :=
  { id := m.id, type := some m.type.toWire, method := m.method,
    params := m.params, result := m.result, error := m.error }

def recognizedKinds : List String := ["request", "response", "notification", "error"]

/-- Well-formed wire message per the spec's Message invariants (spec section 3):
id present, kind present and recognized, exactly one of result/error on a
response, method only on request/notification. -/
def wellFormedWire (w : WireMsg) : Bool :=
  w.id.isSome &&
  (match w.type with
   | some k => recognizedKinds.contains k
   | none => false) &&
  (if w.type == some "response" then
    (w.result.isSome != w.error.isSome) && w.method == none
   else true) &&
  (if w.type == some "request" || w.type == some "notification" then true
   else w.method == none)

/-! ### Client side: per-call receive loop (`_wait_for_response`, lines 181-215)

The incoming stream is the sequence of raw frames this caller's loop will
read; a frame that fails `json.loads` is `none` (the loop logs and
continues).  The loop decodes each frame; a decode failure (unrecognized
kind) propagates as a fault; a decoded message is returned only when its id
equals the caller's request id, and is dropped otherwise.  `exhausted`
models the stream running dry: the caller blocks until its
`asyncio.wait_for` timeout fires. -/

inductive RecvResult where
  | got (m : MCPMessage) (rest : List (Option WireMsg))
  | exhausted
  | fault (e : String) (rest : List (Option WireMsg))
  deriving DecidableEq, Repr

def wait_for_response (request_id : String) :
    List (Option WireMsg) → RecvResult
  | [] => .exhausted
  | none :: rest => wait_for_response request_id rest
  | some w :: rest =>
    match decodeMessage w with
    | .error e => .fault e rest
    | .ok m =>
      if m.id == some request_id then .got m rest
      else wait_for_response request_id rest

/-! ### Client side: `call_tool` guard (lines 67-112) -/

structure ClientState where
  is_connected : Bool
  available_tools : List String
  deriving DecidableEq, Repr

inductive ClientEvent where
    /-- Models `await self.connect()`. -/
  | connect
    /-- Models `await self._send_message(message)` carrying the fresh request id. -/
  | send (id : String)
  deriving DecidableEq, Repr

/-- Models `call_tool(tool_name, parameters)`.  Here `connSt` is the oracle for the
state after an implicit `connect()`; `freshId` the `uuid.uuid4()` value
generated when a request message is built; `stream` the frames this call's
wait loop reads.  The unknown-tool guard raises `ValueError` before the
request id is generated or any message is constructed or sent. -/
def call_tool (st : ClientState) (tool : String) (connSt : ClientState)
    (freshId : String) (stream : List (Option WireMsg)) :
    Except String (Option String) × ClientState × List ClientEvent :=
  let st1 := if st.is_connected then st else connSt
  let evConn : List ClientEvent := if st.is_connected then [] else [.connect]
  if st1.available_tools.contains tool = false then
    (.error ("Tool not available: " ++ tool), st1, evConn)
  else
    let ev2 := evConn ++ [.send freshId]
    match wait_for_response freshId stream with
    | .got m _ =>
      match m.error with
      | some e => (.error ("Tool call failed: " ++ e), st1, ev2)
      | none => (.ok m.result, st1, ev2)
    | .exhausted => (.error "Tool call timed out", st1, ev2)
    | .fault e _ => (.error e, st1, ev2)

/-! ### Concrete instances used by counterexamples and witnesses -/

/-- A string of 36 repeated hex characters: accepted by the source regex, but not
UUID-shaped in the canonical 8-4-4-4-12 sense. -/
def uid36a : String := "aaaaaaaaaaaaaaaaaaaaaaaaaaaaaaaaaaaa"

/-- A canonically UUID-shaped user id (36 zeros with the four hyphens). -/
def uidCanon : String := "00000000-0000-4000-8000-000000000000"

def fs0 : FS := { dirs := [], files := [] }

def wsW : List String := ["terraform", "workspaces", "user-x", "dev"]

def infoW : PlanInfo :=
  { workspace_path := wsW, plan_file := "plan.tfplan", user_id := "u1",
    resources := [], credentials_file := "oldcp" }

def stW : EngineState :=
  { active_plans := [("p1", infoW)], fs := { dirs := [wsW], files := [] } }

/-- Wire response correlated to request id "a". -/
def respA : WireMsg :=
  { id := some "a", type := some "response", method := none, params := none,
    result := some "ra", error := none }

/-- Wire response correlated to request id "b". -/
def respB : WireMsg :=
  { id := some "b", type := some "response", method := none, params := none,
    result := some "rb", error := none }

/-- The message `respA` decodes to. -/
def msgA : MCPMessage :=
  { id := some "a", type := .response, method := none, params := none,
    result := some "ra", error := none }

/-- A response carrying neither `result` nor `error`. -/
def responseNoPayload : WireMsg :=
  { id := some "1", type := some "response", method := none, params := none,
    result := none, error := none }

/-- A message whose kind value is not a recognized `MessageType`. -/
def bogusKindMsg : WireMsg :=
  { id := some "1", type := some "bogus", method := none, params := none,
    result := none, error := none }

/-- A well-formed success response. -/
def wfResponse : WireMsg :=
  { id := some "1", type := some "response", method := none, params := none,
    result := some "r", error := none }

def clientW : ClientState := { is_connected := true, available_tools := ["plan_infrastructure"] }

/-- Predicate on a trace: it contains an overwrite of `p` immediately
followed by an unlink of `p` (the secure-deletion order of
`_cleanup_credentials_file`). -/
def cleanupOrdered (tr : List Event) (p : String) : Prop :=
  ∃ pre post, tr = pre ++ ([Event.credOverwrite p, Event.credUnlink p] ++ post)

/-- The structured failure returned for an unknown or consumed plan id. -/
def planNotFoundResult : OpResult :=
  { success := false, error := some "Plan not found", outputs := none, message := none }

/-! ## Helper lemmas -/

theorem hasFile_insertFile (l : List String) (a : String) :
    hasFile (insertFile l a) a = true := by
  unfold insertFile
  split
  · assumption
  · simp [hasFile]

theorem hasFile_removeFile (l : List String) (a : String) :
    hasFile (removeFile l a) a = false := by
  induction l with
  | nil => rfl
  | cons x xs ih =>
    by_cases h : (x == a) = true
    · simp [removeFile, h, ih]
    · simp only [removeFile, h, if_false, Bool.if_false_left]
      simp [hasFile, ih, h]

theorem cleanup_after_insert (files : List String) (p : String) :
    cleanup_credentials_file (insertFile files p) p =
      (removeFile (insertFile files p) p,
       [Event.credOverwrite p, Event.credUnlink p]) := by
  simp [cleanup_credentials_file, hasFile_insertFile]

theorem lookupPlan_removePlan (l : List (String × PlanInfo)) (k : String) :
    lookupPlan (removePlan l k) k = none := by
  induction l with
  | nil => rfl
  | cons q rest ih =>
    by_cases h : (q.1 == k) = true
    · simp [removePlan, h, ih]
    · simp only [removePlan, h, if_false, Bool.if_false_left]
      simp [lookupPlan, ih, h]

theorem kinds_cases (k : String) (h : recognizedKinds.contains k = true) :
    k = "request" ∨ k = "response" ∨ k = "notification" ∨ k = "error" := by
  have hm : k ∈ recognizedKinds := List.elem_iff.mp h
  simpa [recognizedKinds] using hm

theorem create_workspace_invalid (fs : FS) (uid env : String)
    (h : regexMatchUserId uid = false ∨ envs.contains env = false) :
    ∃ msg, create_workspace fs uid env = (.error msg, fs, []) := by
  unfold create_workspace
  rcases h with h | h
  · exact ⟨"Invalid user_id format", by rw [h]; simp⟩
  · by_cases h2 : regexMatchUserId uid = false
    · exact ⟨"Invalid user_id format", by rw [h2]; simp⟩
    · have h3 : regexMatchUserId uid = true := by
        revert h2; cases regexMatchUserId uid <;> simp
      exact ⟨"Invalid environment. Must be dev, staging, or prod", by
        rw [h3, h]; simp⟩

theorem apply_not_found (st : EngineState) (p u cp : String) (o1 o2 : CmdOutcome)
    (h : lookupPlan st.active_plans p = none) :
    apply_infrastructure st p u cp o1 o2 = (planNotFoundResult, st, []) := by
  simp [apply_infrastructure, h, planNotFoundResult]

theorem create_workspace_shape (fs : FS) (u e : String) :
    (∃ msg, create_workspace fs u e = (.error msg, fs, [])) ∨
    (create_workspace fs u e =
       (.ok (workspaceBase ++ ["user-" ++ u, e]),
        { fs with dirs := insertDir fs.dirs (workspaceBase ++ ["user-" ++ u, e]) },
        [Event.mkdirWorkspace (workspaceBase ++ ["user-" ++ u, e])])) := by
  by_cases h1 : regexMatchUserId u = false
  · exact .inl ⟨"Invalid user_id format", by unfold create_workspace; rw [h1]; simp⟩
  · have h1t : regexMatchUserId u = true := by
      revert h1; cases regexMatchUserId u <;> simp
    by_cases h2 : envs.contains e = false
    · exact .inl ⟨"Invalid environment. Must be dev, staging, or prod",
        by unfold create_workspace; rw [h1t, h2]; simp⟩
    · have h2t : envs.contains e = true := by
        revert h2; cases envs.contains e <;> simp
      by_cases h3 : strStarts (pathStr (resolveComps (workspaceBase ++ ["user-" ++ u, e])))
          (pathStr workspaceBase) = false
      · exact .inl ⟨"Invalid workspace path - potential path traversal attack detected",
          by unfold create_workspace; rw [h1t, h2t]; simp [h3]⟩
      · have h3t : strStarts (pathStr (resolveComps (workspaceBase ++ ["user-" ++ u, e])))
            (pathStr workspaceBase) = true := by
          revert h3
          cases strStarts (pathStr (resolveComps (workspaceBase ++ ["user-" ++ u, e])))
            (pathStr workspaceBase) <;> simp
        exact .inr (by unfold create_workspace; rw [h1t, h2t]; simp [h3t])

theorem uuidShaped_implies_pattern (s : String) (h : uuidShapedSpec s = true) :
    regexMatchUserId s = true := by
  unfold uuidShapedSpec at h
  simp only [Bool.and_eq_true, List.all_eq_true, beq_iff_eq] at h
  obtain ⟨hlen, hall⟩ := h
  unfold regexMatchUserId
  simp only [Bool.or_eq_true, Bool.and_eq_true, List.all_eq_true, beq_iff_eq]
  left
  refine ⟨hlen, ?_⟩
  intro c hc
  obtain ⟨i, hi, hgi⟩ := List.mem_iff_getElem.mp hc
  have hi36 : i < 36 := by rw [hlen] at hi; exact hi
  have hP := hall i (List.mem_range.mpr hi36)
  have hgd : s.toList.getD i ' ' = c := by
    rw [List.getD_eq_getElem s.toList ' ' hi]; exact hgi
  rw [hgd] at hP
  by_cases hd : (i == 8 || i == 13 || i == 18 || i == 23) = true
  · rw [if_pos hd] at hP
    have : c = '-' := by simpa using hP
    subst this
    decide
  · rw [if_neg hd] at hP
    unfold uuidChar
    rcases Bool.or_eq_true_iff.mp hP with ha | hb
    · simp [ha]
    · simp [hb]

/-! ## Claims -/

/-- C1: at-most-once apply.  An apply for a plan id not in the table returns
`success=false` with error "Plan not found" and changes nothing; a
successful apply removes the `ActivePlan` entry for its plan id, and every
subsequent apply for that id — by any user, under any external outcome —
returns the "Plan not found" failure and leaves the state unchanged. -/
theorem C1_at_most_once_apply :
    (∀ st p u cp o1 o2, lookupPlan st.active_plans p = none →
       apply_infrastructure st p u cp o1 o2 = (planNotFoundResult, st, [])) ∧
    (∀ st p u cp o1 o2,
       ((apply_infrastructure st p u cp o1 o2).1).success = true →
       lookupPlan ((apply_infrastructure st p u cp o1 o2).2.1).active_plans p = none ∧
       ∀ u2 cp2 o3 o4,
         apply_infrastructure ((apply_infrastructure st p u cp o1 o2).2.1) p u2 cp2 o3 o4 =
           (planNotFoundResult, (apply_infrastructure st p u cp o1 o2).2.1, [])) := by
  constructor
  · intro st p u cp o1 o2 h
    exact apply_not_found st p u cp o1 o2 h
  · intro st p u cp o1 o2 hs
    cases hl : lookupPlan st.active_plans p with
    | none => simp [apply_infrastructure, hl] at hs
    | some info =>
      cases hu : info.user_id != u with
      | true => simp [apply_infrastructure, hl, hu] at hs
      | false =>
        cases hr : (run_terraform_command ["apply", basename info.plan_file]
            info.workspace_path st.fs.dirs o1).1 with
        | error e => simp [apply_infrastructure, hl, hu, hr] at hs
        | ok out =>
          have hst : (apply_infrastructure st p u cp o1 o2).2.1.active_plans =
              removePlan st.active_plans p := by
            simp [apply_infrastructure, hl, hu, hr]
          constructor
          · rw [hst]; exact lookupPlan_removePlan st.active_plans p
          · intro u2 cp2 o3 o4
            have hnone : lookupPlan
                ((apply_infrastructure st p u cp o1 o2).2.1).active_plans p = none := by
              rw [hst]; exact lookupPlan_removePlan st.active_plans p
            exact apply_not_found _ p u2 cp2 o3 o4 hnone

/-- C1 witness: a concrete successful apply, after which the plan id is gone. -/
theorem C1_at_most_once_apply_witness :
    lookupPlan ((apply_infrastructure stW "p1" "u1" "cp"
      (.ok "a") (.ok "b")).2.1).active_plans "p1" = none :=
  (C1_at_most_once_apply.2 stW "p1" "u1" "cp" (.ok "a") (.ok "b") (by decide)).1

/-- C4: failed authorization is side-effect free.  When the plan exists but
is owned by a different user, apply returns `success=false` with error
"Unauthorized", the state (plan table and filesystem) is bit-for-bit
unchanged, and the event trace is empty: no filesystem access, no process
spawn, no credential materialization. -/
theorem C4_unauthorized_frame (st : EngineState) (p u cp : String)
    (o1 o2 : CmdOutcome) (info : PlanInfo)
    (hl : lookupPlan st.active_plans p = some info)
    (hu : info.user_id ≠ u) :
    apply_infrastructure st p u cp o1 o2 =
      ({ success := false, error := some "Unauthorized", outputs := none, message := none },
       st, []) := by
  have hb : (info.user_id != u) = true := by
    simp [bne_iff_ne, hu]
  simp [apply_infrastructure, hl, hb]

/-- C4 witness: a concrete unauthorized apply leaves everything unchanged. -/
theorem C4_unauthorized_frame_witness :
    apply_infrastructure stW "p1" "u2" "cp" (.ok "a") (.ok "b") =
      ({ success := false, error := some "Unauthorized", outputs := none, message := none },
       stW, []) :=
  C4_unauthorized_frame stW "p1" "u2" "cp" (.ok "a") (.ok "b") infoW
    (by decide) (by decide)

/-- C2: ephemeral credential cleanup on every exit path.  For both
`apply_infrastructure` and `plan_infrastructure`, under every external
outcome (success, non-zero exit, timeout, missing workspace): whenever the
operation materialized the transient credential file (its trace contains
the creation event), the file is absent from the filesystem when the
operation returns, and the trace shows the cleanup overwriting the file
and then unlinking it, in that order. -/
theorem C2_credential_cleanup :
    (∀ st p u cp o1 o2,
       Event.credCreate cp ∈ (apply_infrastructure st p u cp o1 o2).2.2 →
       hasFile ((apply_infrastructure st p u cp o1 o2).2.1).fs.files cp = false ∧
       cleanupOrdered ((apply_infrastructure st p u cp o1 o2).2.2) cp) ∧
    (∀ st res reg env uid cp pf pid o1 o2 o3 parsed,
       Event.credCreate cp ∈
         (plan_infrastructure st res reg env uid cp pf pid o1 o2 o3 parsed).2.2 →
       hasFile ((plan_infrastructure st res reg env uid cp pf pid o1 o2 o3 parsed).2.1).fs.files
         cp = false ∧
       cleanupOrdered ((plan_infrastructure st res reg env uid cp pf pid o1 o2 o3 parsed).2.2)
         cp) := by
  constructor
  · intro st p u cp o1 o2 h
    cases hl : lookupPlan st.active_plans p with
    | none => simp [apply_infrastructure, hl] at h
    | some info =>
      cases hu : info.user_id != u with
      | true => simp [apply_infrastructure, hl, hu] at h
      | false =>
        cases hr : (run_terraform_command ["apply", basename info.plan_file]
            info.workspace_path st.fs.dirs o1).1 with
        | error e =>
          refine ⟨?_, ?_⟩
          · have hfiles : ((apply_infrastructure st p u cp o1 o2).2.1).fs.files =
                removeFile (insertFile st.fs.files cp) cp := by
              simp [apply_infrastructure, hl, hu, hr, create_secure_credentials_file,
                cleanup_after_insert]
            rw [hfiles]; exact hasFile_removeFile _ cp
          · have htr : (apply_infrastructure st p u cp o1 o2).2.2 =
                (Event.credCreate cp ::
                  (run_terraform_command ["apply", basename info.plan_file]
                    info.workspace_path st.fs.dirs o1).2) ++
                ([Event.credOverwrite cp, Event.credUnlink cp] ++ []) := by
              simp [apply_infrastructure, hl, hu, hr, create_secure_credentials_file,
                cleanup_after_insert]
            exact ⟨_, _, htr⟩
        | ok out =>
          refine ⟨?_, ?_⟩
          · have hfiles : ((apply_infrastructure st p u cp o1 o2).2.1).fs.files =
                removeFile (insertFile st.fs.files cp) cp := by
              simp [apply_infrastructure, hl, hu, hr, create_secure_credentials_file,
                cleanup_after_insert]
            rw [hfiles]; exact hasFile_removeFile _ cp
          · have htr : (apply_infrastructure st p u cp o1 o2).2.2 =
                (Event.credCreate cp ::
                  ((run_terraform_command ["apply", basename info.plan_file]
                     info.workspace_path st.fs.dirs o1).2 ++
                   (get_terraform_outputs info.workspace_path st.fs.dirs o2).2)) ++
                ([Event.credOverwrite cp, Event.credUnlink cp] ++ []) := by
              simp [apply_infrastructure, hl, hu, hr, create_secure_credentials_file,
                cleanup_after_insert]
            exact ⟨_, _, htr⟩
  · intro st res reg env uid cp pf pid o1 o2 o3 parsed h
    rcases create_workspace_shape st.fs uid env with ⟨msg, hw⟩ | hw
    · simp [plan_infrastructure, hw] at h
    · cases hri : (run_terraform_command ["init"] (workspaceBase ++ ["user-" ++ uid, env])
          (insertDir st.fs.dirs (workspaceBase ++ ["user-" ++ uid, env])) o1).1 with
      | error e =>
        refine ⟨?_, ?_⟩
        · have hfiles :
              ((plan_infrastructure st res reg env uid cp pf pid o1 o2 o3 parsed).2.1).fs.files =
              removeFile (insertFile (insertFile st.fs.files
                (pathStr (workspaceBase ++ ["user-" ++ uid, env]) ++ "/main.tf")) cp) cp := by
            simp [plan_infrastructure, hw, hri, create_secure_credentials_file,
              cleanup_after_insert]
          rw [hfiles]; exact hasFile_removeFile _ cp
        · have htr : (plan_infrastructure st res reg env uid cp pf pid o1 o2 o3 parsed).2.2 =
              ([Event.mkdirWorkspace (workspaceBase ++ ["user-" ++ uid, env]),
                Event.writeFile (pathStr (workspaceBase ++ ["user-" ++ uid, env]) ++ "/main.tf"),
                Event.credCreate cp] ++
               (run_terraform_command ["init"] (workspaceBase ++ ["user-" ++ uid, env])
                 (insertDir st.fs.dirs (workspaceBase ++ ["user-" ++ uid, env])) o1).2) ++
              ([Event.credOverwrite cp, Event.credUnlink cp] ++ []) := by
            simp [plan_infrastructure, hw, hri, create_secure_credentials_file,
              cleanup_after_insert]
          exact ⟨_, _, htr⟩
      | ok a =>
        cases hrp : (run_terraform_command ["plan", "-out", pf, "-detailed-exitcode"]
            (workspaceBase ++ ["user-" ++ uid, env])
            (insertDir st.fs.dirs (workspaceBase ++ ["user-" ++ uid, env])) o2).1 with
        | error e =>
          refine ⟨?_, ?_⟩
          · have hfiles :
                ((plan_infrastructure st res reg env uid cp pf pid o1 o2 o3 parsed).2.1).fs.files =
                removeFile (insertFile (insertFile st.fs.files
                  (pathStr (workspaceBase ++ ["user-" ++ uid, env]) ++ "/main.tf")) cp) cp := by
              simp [plan_infrastructure, hw, hri, hrp, create_secure_credentials_file,
                cleanup_after_insert]
            rw [hfiles]; exact hasFile_removeFile _ cp
          · have htr : (plan_infrastructure st res reg env uid cp pf pid o1 o2 o3 parsed).2.2 =
                ([Event.mkdirWorkspace (workspaceBase ++ ["user-" ++ uid, env]),
                  Event.writeFile (pathStr (workspaceBase ++ ["user-" ++ uid, env]) ++ "/main.tf"),
                  Event.credCreate cp] ++
                 ((run_terraform_command ["init"] (workspaceBase ++ ["user-" ++ uid, env])
                    (insertDir st.fs.dirs (workspaceBase ++ ["user-" ++ uid, env])) o1).2 ++
                  (run_terraform_command ["plan", "-out", pf, "-detailed-exitcode"]
                    (workspaceBase ++ ["user-" ++ uid, env])
                    (insertDir st.fs.dirs (workspaceBase ++ ["user-" ++ uid, env])) o2).2)) ++
                ([Event.credOverwrite cp, Event.credUnlink cp] ++ []) := by
              simp [plan_infrastructure, hw, hri, hrp, create_secure_credentials_file,
                cleanup_after_insert]
            exact ⟨_, _, htr⟩
        | ok b =>
          refine ⟨?_, ?_⟩
          · have hfiles :
                ((plan_infrastructure st res reg env uid cp pf pid o1 o2 o3 parsed).2.1).fs.files =
                removeFile (insertFile (insertFile st.fs.files
                  (pathStr (workspaceBase ++ ["user-" ++ uid, env]) ++ "/main.tf")) cp) cp := by
              simp [plan_infrastructure, hw, hri, hrp, create_secure_credentials_file,
                cleanup_after_insert]
            rw [hfiles]; exact hasFile_removeFile _ cp
          · have htr : (plan_infrastructure st res reg env uid cp pf pid o1 o2 o3 parsed).2.2 =
                ([Event.mkdirWorkspace (workspaceBase ++ ["user-" ++ uid, env]),
                  Event.writeFile (pathStr (workspaceBase ++ ["user-" ++ uid, env]) ++ "/main.tf"),
                  Event.credCreate cp] ++
                 ((run_terraform_command ["init"] (workspaceBase ++ ["user-" ++ uid, env])
                    (insertDir st.fs.dirs (workspaceBase ++ ["user-" ++ uid, env])) o1).2 ++
                  ((run_terraform_command ["plan", "-out", pf, "-detailed-exitcode"]
                     (workspaceBase ++ ["user-" ++ uid, env])
                     (insertDir st.fs.dirs (workspaceBase ++ ["user-" ++ uid, env])) o2).2 ++
                   (get_plan_json (workspaceBase ++ ["user-" ++ uid, env])
                     (insertDir st.fs.dirs (workspaceBase ++ ["user-" ++ uid, env]))
                     pf o3 parsed).2))) ++
                ([Event.credOverwrite cp, Event.credUnlink cp] ++ []) := by
              simp [plan_infrastructure, hw, hri, hrp, create_secure_credentials_file,
                cleanup_after_insert]
            exact ⟨_, _, htr⟩

/-- C2 witness: a concrete apply whose external command fails still removes
the credential file and overwrites before unlinking. -/
theorem C2_credential_cleanup_witness :
    hasFile ((apply_infrastructure stW "p1" "u1" "cp"
      (.nonzero "boom") (.ok "b")).2.1).fs.files "cp" = false ∧
    cleanupOrdered ((apply_infrastructure stW "p1" "u1" "cp"
      (.nonzero "boom") (.ok "b")).2.2) "cp" :=
  C2_credential_cleanup.1 stW "p1" "u1" "cp" (.nonzero "boom") (.ok "b") (by decide)

/-- C3 counterexample: `uid36a` (36 repeated hex characters) is not
UUID-shaped, yet `_create_workspace` does not raise — it returns a
workspace path and touches the filesystem (a non-empty event trace, the
`mkdir`).  The source's check is the looser pattern `^[a-f0-9\-]{36}$`,
not a UUID-shape check, so the claim as stated is false at this input. -/
theorem C3_fail_closed_counterexample :
    uuidShapedSpec uid36a = false ∧
    (create_workspace fs0 uid36a "dev").1 =
      .ok (workspaceBase ++ ["user-" ++ uid36a, "dev"]) ∧
    (create_workspace fs0 uid36a "dev").2.2 ≠ [] := by
  refine ⟨by decide, by rfl, by decide⟩

/-- C3 (amended): fail-closed validation against the source's actual
pattern.  Every canonically UUID-shaped id passes the source's pattern; and
whenever the user id fails the pattern `^[a-f0-9\-]{36}$` or the
environment is not one of dev/staging/prod, `_create_workspace` raises a
`ValueError` with the filesystem untouched and an empty event trace, and a
whole `plan_infrastructure` call returns `success=false` with the engine
state unchanged and no event: no directory or file created, no process
spawned, no credential file materialized. -/
theorem C3_fail_closed_amended :
    (∀ s, uuidShapedSpec s = true → regexMatchUserId s = true) ∧
    (∀ fs uid env, regexMatchUserId uid = false ∨ envs.contains env = false →
       ∃ msg, create_workspace fs uid env = (.error msg, fs, [])) ∧
    (∀ st res reg uid env cp pf pid o1 o2 o3 parsed,
       regexMatchUserId uid = false ∨ envs.contains env = false →
       ((plan_infrastructure st res reg env uid cp pf pid o1 o2 o3 parsed).1).success = false ∧
       (plan_infrastructure st res reg env uid cp pf pid o1 o2 o3 parsed).2.1 = st ∧
       (plan_infrastructure st res reg env uid cp pf pid o1 o2 o3 parsed).2.2 = []) := by
  refine ⟨uuidShaped_implies_pattern, create_workspace_invalid, ?_⟩
  intro st res reg uid env cp pf pid o1 o2 o3 parsed h
  obtain ⟨msg, hmsg⟩ := create_workspace_invalid st.fs uid env h
  refine ⟨?_, ?_, ?_⟩ <;> simp [plan_infrastructure, hmsg]

/-- C3 witness: a concrete invalid user id is rejected with no effects. -/
theorem C3_fail_closed_amended_witness :
    ∃ msg, create_workspace fs0 "xx" "dev" = (.error msg, fs0, []) :=
  C3_fail_closed_amended.2.1 fs0 "xx" "dev" (Or.inl (by decide))

/-- C8: allow-listed execution with bounded timeout.  (1) A disallowed
subcommand is rejected before any process is spawned (the trace is empty).
(2) Every spawn event carries the 300-second timeout.  (3) Under a valid
working directory and an allowed subcommand, a timed-out process raises
the timeout ExecutionError, a non-zero exit the exit ExecutionError, and
the two errors are distinct.  (4) A working directory that does not
resolve under the configured base is rejected with no spawn. -/
theorem C8_allowlist_timeout :
    (∀ sub rest cwd dirs o, allowed_commands.contains sub = false →
       (∃ e, (run_terraform_command (sub :: rest) cwd dirs o).1 = .error e) ∧
       (run_terraform_command (sub :: rest) cwd dirs o).2 = []) ∧
    (∀ cmd cwd dirs o c t,
       Event.spawn c t ∈ (run_terraform_command cmd cwd dirs o).2 → t = 300) ∧
    (∀ sub rest cwd dirs,
       dirLeads workspaceBase (resolveComps cwd) = true →
       hasDir dirs (resolveComps cwd) = true →
       allowed_commands.contains sub = true →
       (∀ s, (run_terraform_command (sub :: rest) cwd dirs (.nonzero s)).1 =
          .error (.nonzeroExit s)) ∧
       (run_terraform_command (sub :: rest) cwd dirs .timedOut).1 = .error .timedOut ∧
       (∀ s, RunErr.nonzeroExit s ≠ RunErr.timedOut)) ∧
    (∀ cmd cwd dirs o, dirLeads workspaceBase (resolveComps cwd) = false →
       (run_terraform_command cmd cwd dirs o).1 = .error (.invalidPath (pathStr cwd)) ∧
       (run_terraform_command cmd cwd dirs o).2 = []) := by
  refine ⟨?_, ?_, ?_, ?_⟩
  · intro sub rest cwd dirs o hsub
    unfold run_terraform_command
    by_cases h1 : dirLeads workspaceBase (resolveComps cwd) = false
    · simp [h1]
    · have h1t : dirLeads workspaceBase (resolveComps cwd) = true := by
        revert h1; cases dirLeads workspaceBase (resolveComps cwd) <;> simp
      by_cases h2 : hasDir dirs (resolveComps cwd) = false
      · simp [h1t, h2]
      · have h2t : hasDir dirs (resolveComps cwd) = true := by
          revert h2; cases hasDir dirs (resolveComps cwd) <;> simp
        have hmem : sub ∉ allowed_commands := by simpa using hsub
        simp [h1t, h2t, hmem]
  · intro cmd cwd dirs o c t h
    unfold run_terraform_command at h
    by_cases h1 : dirLeads workspaceBase (resolveComps cwd) = false
    · simp [h1] at h
    · have h1t : dirLeads workspaceBase (resolveComps cwd) = true := by
        revert h1; cases dirLeads workspaceBase (resolveComps cwd) <;> simp
      by_cases h2 : hasDir dirs (resolveComps cwd) = false
      · simp [h1t, h2] at h
      · have h2t : hasDir dirs (resolveComps cwd) = true := by
          revert h2; cases hasDir dirs (resolveComps cwd) <;> simp
        cases cmd with
        | nil =>
          simp [h1t, h2t] at h
          exact h.2
        | cons sub rest =>
          by_cases h3 : sub ∈ allowed_commands
          · simp [h1t, h2t, h3] at h
            exact h.2
          · simp [h1t, h2t, h3] at h
  · intro sub rest cwd dirs h1 h2 h3
    have hmem : sub ∈ allowed_commands := by simpa using h3
    refine ⟨?_, ?_, ?_⟩
    · intro s
      unfold run_terraform_command
      simp [h1, h2, hmem]
    · unfold run_terraform_command
      simp [h1, h2, hmem]
    · intro s hcon
      exact RunErr.noConfusion hcon
  · intro cmd cwd dirs o h1
    unfold run_terraform_command
    simp [h1]

/-- C8 witness: a disallowed subcommand is rejected and spawns nothing;
a timed-out allowed command raises the timeout error. -/
theorem C8_allowlist_timeout_witness :
    (run_terraform_command ["frobnicate"] wsW [wsW] (.ok "")).2 = [] ∧
    (run_terraform_command ["apply", "p.tfplan"] wsW [wsW] .timedOut).1 =
      .error .timedOut :=
  ⟨(C8_allowlist_timeout.1 "frobnicate" [] wsW [wsW] (.ok "") (by decide)).2,
   (C8_allowlist_timeout.2.2.1 "apply" ["p.tfplan"] wsW [wsW]
     (by decide) (by decide) (by decide)).2.1⟩

/-- C9: the engine's cost estimate is the fixed placeholder 50.0 for every
plan JSON, and consequently the `estimated_cost` field of every successful
plan result equals 50 (in particular it is nonnegative) and does not vary
with the requested resources. -/
theorem C9_cost_placeholder :
    (∀ pj, estimate_cost pj = 50) ∧
    (∀ st res reg env uid cp pf pid o1 o2 o3 parsed,
       ((plan_infrastructure st res reg env uid cp pf pid o1 o2 o3 parsed).1).success = true →
       ∃ d, ((plan_infrastructure st res reg env uid cp pf pid o1 o2 o3 parsed).1).plan =
              some d ∧
            d.estimated_cost = 50 ∧ 0 ≤ d.estimated_cost) := by
  constructor
  · intro pj
    simp [estimate_cost]
  · intro st res reg env uid cp pf pid o1 o2 o3 parsed hs
    rcases create_workspace_shape st.fs uid env with ⟨msg, hw⟩ | hw
    · simp [plan_infrastructure, hw] at hs
    · cases hri : (run_terraform_command ["init"] (workspaceBase ++ ["user-" ++ uid, env])
          (insertDir st.fs.dirs (workspaceBase ++ ["user-" ++ uid, env])) o1).1 with
      | error e => simp [plan_infrastructure, hw, hri] at hs
      | ok a =>
        cases hrp : (run_terraform_command ["plan", "-out", pf, "-detailed-exitcode"]
            (workspaceBase ++ ["user-" ++ uid, env])
            (insertDir st.fs.dirs (workspaceBase ++ ["user-" ++ uid, env])) o2).1 with
        | error e => simp [plan_infrastructure, hw, hri, hrp] at hs
        | ok b =>
          have hplan :
              ((plan_infrastructure st res reg env uid cp pf pid o1 o2 o3 parsed).1).plan =
              some { id := pid,
                     resources_to_create := count_resources
                       (get_plan_json (workspaceBase ++ ["user-" ++ uid, env])
                         (insertDir st.fs.dirs (workspaceBase ++ ["user-" ++ uid, env]))
                         pf o3 parsed).1 "create",
                     estimated_cost := estimate_cost
                       (get_plan_json (workspaceBase ++ ["user-" ++ uid, env])
                         (insertDir st.fs.dirs (workspaceBase ++ ["user-" ++ uid, env]))
                         pf o3 parsed).1,
                     summary :=
                       "Plan will create infrastructure resources as requested." } := by
            simp [plan_infrastructure, hw, hri, hrp]
          exact ⟨_, hplan, by norm_num [estimate_cost], by norm_num [estimate_cost]⟩

/-- C9 witness: a concrete successful plan reports cost exactly 50. -/
theorem C9_cost_placeholder_witness :
    ∃ d, ((plan_infrastructure stW [] "us-east-1" "dev" uidCanon "cp" "pf.tfplan" "pid1"
            (.ok "i") (.ok "p") (.ok "s") (some { resource_changes := [["create"]] })).1).plan =
          some d ∧ d.estimated_cost = 50 ∧ 0 ≤ d.estimated_cost :=
  C9_cost_placeholder.2 stW [] "us-east-1" "dev" uidCanon "cp" "pf.tfplan" "pid1"
    (.ok "i") (.ok "p") (.ok "s") (some { resource_changes := [["create"]] }) (by decide)

/-- C6: codec round-trip.  Decoding a well-formed wire message succeeds and
re-encoding the result reproduces the wire message exactly; and encoding
carries each absent optional field over as absent — no `null` placeholder
is ever emitted (the encoder drops `None`-valued fields). -/
theorem C6_codec_roundtrip :
    (∀ w, wellFormedWire w = true →
       ∃ m, decodeMessage w = .ok m ∧ encodeMessage m = w) ∧
    (∀ m, (encodeMessage m).id = m.id ∧ (encodeMessage m).method = m.method ∧
          (encodeMessage m).params = m.params ∧ (encodeMessage m).result = m.result ∧
          (encodeMessage m).error = m.error) := by
  constructor
  · intro w hw
    obtain ⟨i, ty, me, pa, re, er⟩ := w
    cases ty with
    | none => simp [wellFormedWire] at hw
    | some k =>
      have hk : recognizedKinds.contains k = true := by
        simp only [wellFormedWire, Bool.and_eq_true] at hw
        exact hw.1.1.2
      rcases kinds_cases k hk with rfl | rfl | rfl | rfl <;>
        exact ⟨_, rfl, rfl⟩
  · intro m
    exact ⟨rfl, rfl, rfl, rfl, rfl⟩

/-- C6 witness: a concrete well-formed response round-trips. -/
theorem C6_codec_roundtrip_witness :
    ∃ m, decodeMessage wfResponse = .ok m ∧ encodeMessage m = wfResponse :=
  C6_codec_roundtrip.1 wfResponse (by decide)

/-- C7 counterexample: the claim says a response carrying neither `result`
nor `error` fails to decode, but the source performs no such check —
`responseNoPayload` decodes successfully (to a message with both fields
`None`). -/
theorem C7_decode_counterexample :
    decodeMessage responseNoPayload =
      .ok { id := some "1", type := .response, method := none, params := none,
            result := none, error := none } := by
  rfl

/-- C7 (amended): decoding fails exactly for an unrecognized kind value.  A
present but unrecognized `kind` makes decoding fail (the `ValueError` from
the enum constructor — the code's realization of ProtocolError); but a
response lacking both `result` and `error` is decoded without any error
(the missing-payload check required by the claim does not exist; a message
with no kind field at all is likewise decoded, defaulting to response). -/
theorem C7_decode_failure_amended :
    (∀ w k, w.type = some k → MessageType.ofWire k = none →
       (decodeMessage w).isOk = false) ∧
    (∀ w, w.type = some "response" → w.result = none → w.error = none →
       (decodeMessage w).isOk = true) := by
  constructor
  · intro w k hk hbad
    simp [decodeMessage, hk, hbad, Except.isOk, Except.toBool]
  · intro w hk _ _
    simp [decodeMessage, hk, MessageType.ofWire, Except.isOk, Except.toBool]

/-- C7 witness: a concrete bogus kind fails to decode; a concrete payloadless
response decodes successfully. -/
theorem C7_decode_failure_amended_witness :
    (decodeMessage bogusKindMsg).isOk = false ∧
    (decodeMessage responseNoPayload).isOk = true :=
  ⟨C7_decode_failure_amended.1 bogusKindMsg "bogus" rfl rfl,
   C7_decode_failure_amended.2 responseNoPayload rfl rfl rfl⟩

/-- C5 (code bug demonstration): each `call` runs its own receive loop on
the shared transport and *drops* every message whose id is not its own —
including another caller's response — instead of dispatching it to the
matching waiter (the `pending_requests` table is initialized but never
used).  Concretely: responses for callers "a" and "b" arrive in the order
[b, a]; caller "a"'s loop runs first, consumes and drops b's response, and
returns a's own; caller "b" then finds the stream empty and receives
nothing (its wait times out), although its response did arrive.  The first
conjunct also shows a caller only ever receives the message matching its
own id. -/
theorem C5_correlation_loss_demo :
    wait_for_response "a" [some respB, some respA] = .got msgA [] ∧
    msgA.id = some "a" ∧
    wait_for_response "b" [] = .exhausted := by
  exact ⟨rfl, rfl, rfl⟩

/-- C10: unknown-tool guard on a connected client.  If the client is
connected and the tool name is not among the discovered tools, `call_tool`
raises `ValueError` immediately: the returned state is the input state and
the event trace is empty — no connect, no request construction, no send,
no correlation id used. -/
theorem C10_unknown_tool_guard (st : ClientState) (tool : String)
    (connSt : ClientState) (fid : String) (stream : List (Option WireMsg))
    (hc : st.is_connected = true)
    (ht : st.available_tools.contains tool = false) :
    call_tool st tool connSt fid stream =
      (.error ("Tool not available: " ++ tool), st, []) := by
  have hmem : tool ∉ st.available_tools := by simpa using ht
  simp [call_tool, hc, hmem]

/-- C10 witness: a concrete unknown tool on a connected client. -/
theorem C10_unknown_tool_guard_witness :
    call_tool clientW "destroy_all" clientW "fid" [] =
      (.error ("Tool not available: " ++ "destroy_all"), clientW, []) :=
  C10_unknown_tool_guard clientW "destroy_all" clientW "fid" []
    (by decide) (by decide)

end Terraflux
